import Mathlib

/-!
Shallow embedding of the xg_pv national solar-forecast inference pipeline.

The repository provides two entry points under src/ (gradboost_pv/app.py and
scripts/inference/mock_setup.py); the core classes they call
(NationalBoostInferenceModel, NationalPVModelConfig, MockDataFeed,
MockDatabaseConnection, NationalBoostModelInference) live in modules of the
repository that are not under src/, so those operations are modelled from the
specification, faithful to its words, as marked on each definition.
-/

/-- Modelled from the spec: a Prediction record as persisted by the pipeline,
with fields horizon, base_time and predicted_value (the declaring module
gradboost_pv/inference is not under src/). -/
structure Prediction where
  horizon : Nat
  base_time : Nat
  predicted_value : Int
  deriving DecidableEq

/-- The persisted prediction table: an ordered collection of Prediction records. -/
abbrev PredictionTable := List Prediction

/-- Modelled from the spec: the two mutually exclusive write modes of the
Database Connection. -/
inductive WriteMode where
  | overwrite : WriteMode
  | append : WriteMode
  deriving DecidableEq

/-- Modelled from the spec: the effect of `write(batch, mode)` on the persisted
table content. Overwrite replaces the whole table with the batch; append reads
the current table and re-persists the concatenation (the declaring module
gradboost_pv/inference/run is not under src/). -/
def writeTable (stored batch : PredictionTable) (mode : WriteMode) : PredictionTable :=
  match mode with
  | WriteMode.overwrite => batch
  | WriteMode.append => stored ++ batch

/-- Modelled from the spec: the mock database connection, fixed at construction
to a storage location (whose current file content is `stored`) and to the
overwrite_database flag (gradboost_pv/inference/run is not under src/). -/
structure MockDatabaseConnection where
  overwrite_database : Bool
  stored : PredictionTable

/-- Modelled from the spec: `write(batch, mode)` persists one batch into the
connection's storage location via the table-level write semantics. -/
def MockDatabaseConnection.write (c : MockDatabaseConnection) (batch : PredictionTable)
    (mode : WriteMode) : MockDatabaseConnection :=
  MockDatabaseConnection.mk c.overwrite_database (writeTable c.stored batch mode)

/-- Modelled from the spec: the in-memory database held by a connected
MockDatabaseConnection. -/
structure LocalDatabase where
  data : PredictionTable

/-- Modelled from the spec: `connect()` acquires the storage handle; a
connection constructed in overwrite mode starts from an empty table (its first
write truncates the stored content), while an append-mode connection loads the
currently persisted table. -/
def MockDatabaseConnection.connect (c : MockDatabaseConnection) : LocalDatabase :=
  if c.overwrite_database then LocalDatabase.mk [] else LocalDatabase.mk c.stored

/-- Modelled from the spec: `read()` returns the current persisted state. -/
def LocalDatabase.read (db : LocalDatabase) : PredictionTable :=
  db.data

/-- Modelled from the spec: the static spatial reference, two parallel ordered
coordinate sequences (gradboost_pv/models/utils is not under src/). -/
structure CoordinateGrid where
  x : List Int
  y : List Int

/-- Modelled from the spec: one retrieved, read-only bundle of gridded weather
data (with its spatial indexing and embedded timestamp) and ground truth. -/
structure WeatherSnapshot where
  spatial_index : List (Int × Int)
  metadata_datetime : Nat
  features : List Int
  deriving DecidableEq

/-- Modelled from the spec: the grid's coordinate pairing must exactly match the
snapshot's spatial indexing, with no silent reindexing or interpolation. -/
def aligned (g : CoordinateGrid) (s : WeatherSnapshot) : Bool :=
  decide (g.x.zip g.y = s.spatial_index)

/-- Modelled from the spec: a loaded per-horizon regression model artifact;
only its prediction function matters to the core. -/
structure XGBRegressor where
  predict : List Int → Int

/-- Modelled from the spec: the immutable model configuration with a name, the
configured forecast horizons, and the read-time override flag (the field name
overwrite_read_datetime_at_inference appears at its construction site in
src/scripts/inference/mock_setup.py). -/
structure NationalPVModelConfig where
  name : String
  forecast_horizon_hours : List Nat
  overwrite_read_datetime_at_inference : Bool

/-- Modelled from the spec: errors surfaced by the inference model, fatal for
the run. -/
inductive InferenceError where
  | artifactError : Nat → InferenceError
  | alignmentError : InferenceError
  deriving DecidableEq

/-- The Inference Model's per-horizon model cache, keyed by horizon. -/
abbrev ModelCache := List (Nat × XGBRegressor)

/-- Lookup of a cached model by its horizon key. -/
def lookupCache : ModelCache → Nat → Option XGBRegressor
  | [], _ => none
  | (k, m) :: rest, h => if k = h then some m else lookupCache rest h

/-- Modelled from the spec: resolve the model for one horizon, consulting the
cache first and invoking the injected artifact loader only on a miss; the third
component records the loader invocations this step performed. A missing
artifact is a fatal artifact-retrieval error. -/
def getOrLoad (loader : Nat → Option XGBRegressor) (st : ModelCache) (h : Nat) :
    Except InferenceError XGBRegressor × ModelCache × List Nat :=
  match lookupCache st h with
  | some m => (Except.ok m, st, [])
  | none =>
    match loader h with
    | some m => (Except.ok m, (h, m) :: st, [h])
    | none => (Except.error (InferenceError.artifactError h), st, [h])

/-- Modelled from the spec: the read-time policy. With the override flag false
the base_time is the wall-clock time of the invocation; with it true the
base_time comes from the snapshot's own metadata. -/
def read_time (cfg : NationalPVModelConfig) (snap : WeatherSnapshot) (now : Nat) : Nat :=
  if cfg.overwrite_read_datetime_at_inference then snap.metadata_datetime else now

/-- Modelled from the spec: the strictly sequential per-horizon loop of
`predict_all`. For each horizon the model is resolved through the cache and one
Prediction stamped with the shared base_time is produced; any failure aborts the
whole call. The result carries the final cache and the loader-invocation log. -/
def predictHorizons (loader : Nat → Option XGBRegressor) (rt : Nat) (feats : List Int) :
    List Nat → ModelCache → Except InferenceError (List Prediction) × ModelCache × List Nat
  | [], st => (Except.ok [], st, [])
  | h :: rest, st =>
    match getOrLoad loader st h with
    | (Except.error e, st1, c1) => (Except.error e, st1, c1)
    | (Except.ok m, st1, c1) =>
      match predictHorizons loader rt feats rest st1 with
      | (Except.error e, st2, c2) => (Except.error e, st2, c1 ++ c2)
      | (Except.ok ps, st2, c2) =>
        (Except.ok (Prediction.mk h rt (m.predict feats) :: ps), st2, c1 ++ c2)

/-- Modelled from the spec: `predict_all(snapshot)` produces the full horizon
batch from one snapshot, failing with a data-alignment error when the grid's
coordinate pairing does not match the snapshot's spatial indexing. -/
def predict_all (cfg : NationalPVModelConfig) (grid : CoordinateGrid)
    (loader : Nat → Option XGBRegressor) (snap : WeatherSnapshot) (now : Nat)
    (st : ModelCache) :
    Except InferenceError (List Prediction) × ModelCache × List Nat :=
  if aligned grid snap then
    predictHorizons loader (read_time cfg snap now) snap.features cfg.forecast_horizon_hours st
  else
    (Except.error InferenceError.alignmentError, st, [])

/-- The observable operations one pipeline run performs, in order. -/
inductive RunEvent where
  | getSnapshotEv : RunEvent
  | predictAllEv : RunEvent
  | writeEv : RunEvent
  deriving DecidableEq

/-- The outcome of one pipeline run: whether it succeeded, the persisted table
after the run, the model cache after the run, the loader-invocation log, and
the trace of operations performed. -/
structure RunResult where
  outcome : Except InferenceError Unit
  table : PredictionTable
  cache : ModelCache
  calls : List Nat
  events : List RunEvent

/-- Modelled from the spec: one `run()` of the NationalBoostModelInference
pipeline. It obtains one WeatherSnapshot from the data feed, calls
`predict_all` once, and on success performs exactly one `write(batch, mode)`;
on failure the error propagates and the persisted table is left unchanged. -/
def NationalBoostModelInference.run (cfg : NationalPVModelConfig) (grid : CoordinateGrid)
    (loader : Nat → Option XGBRegressor) (feed : Nat → WeatherSnapshot) (key now : Nat)
    (mode : WriteMode) (stored : PredictionTable) (st : ModelCache) : RunResult :=
  let snap := feed key
  match predict_all cfg grid loader snap now st with
  | (Except.ok batch, st1, calls) =>
    RunResult.mk (Except.ok ()) (writeTable stored batch mode) st1 calls
      [RunEvent.getSnapshotEv, RunEvent.predictAllEv, RunEvent.writeEv]
  | (Except.error e, st1, calls) =>
    RunResult.mk (Except.error e) stored st1 calls
      [RunEvent.getSnapshotEv, RunEvent.predictAllEv]

/-- Modelled from the spec: a sequence of `predict_all` calls within one process
lifetime, with an always-succeeding pure artifact loader `f`; the cache is
threaded through the calls and the loader-invocation logs are concatenated. -/
def runSeq (cfg : NationalPVModelConfig) (grid : CoordinateGrid) (f : Nat → XGBRegressor) :
    List (WeatherSnapshot × Nat) → ModelCache → ModelCache × List Nat
  | [], st => (st, [])
  | (snap, now) :: rest, st =>
    match predict_all cfg grid (fun k => some (f k)) snap now st with
    | (_, st1, c1) =>
      match runSeq cfg grid f rest st1 with
      | (st2, c2) => (st2, c1 ++ c2)

/-- Verification helper: 1 when the cache holds a model for horizon k, else 0;
used to account for loader invocations across a run sequence. -/
def cacheBit (st : ModelCache) (k : Nat) : Nat :=
  if (lookupCache st k).isSome then 1 else 0

/-- Modelled from the spec: the Replay (mock) data feed, constructed with fixed
pre-sliced data; `get_snapshot` selects from that bounded data by key and does
not modify the feed (gradboost_pv/inference/data_feeds is not under src/). -/
structure MockDataFeed where
  data : List (Nat × WeatherSnapshot)

/-- Lookup of a snapshot in the replay feed's fixed data by key. -/
def lookupSnap : List (Nat × WeatherSnapshot) → Nat → Option WeatherSnapshot
  | [], _ => none
  | (k, s) :: rest, key => if k = key then some s else lookupSnap rest key

/-- Modelled from the spec: `get_snapshot(key)` on the replay feed returns the
snapshot selected by the key from the fixed bounded data, together with the
feed as left after the call. -/
def MockDataFeed.get_snapshot (feed : MockDataFeed) (key : Nat) :
    Option WeatherSnapshot × MockDataFeed :=
  (lookupSnap feed.data key, feed)

/-- Error with which the entry point itself can fail before reaching the
pipeline: referencing a local variable that was never bound. -/
inductive MainError where
  | unboundLocalError : String → MainError
  deriving DecidableEq

/-- Shallow embedding of `main` from src/gradboost_pv/app.py. External
collaborators (s3 client, config parsing, coordinate loading, the production
data feed) are taken as already-validated inputs. When write_to_database is not
set, a MockDatabaseConnection is created with overwrite_database=True (write
mode overwrite); when it is set, the real-database branch is an empty `pass`,
so the local variable database_conn is never bound and the pipeline
construction that references it fails with an unbound-local error. -/
def app_main (write_to_database : Bool) (cfg : NationalPVModelConfig)
    (grid : CoordinateGrid) (loader : Nat → Option XGBRegressor)
    (feed : Nat → WeatherSnapshot) (key now : Nat) (stored : PredictionTable) :
    Except MainError RunResult :=
  let database_conn : Option WriteMode :=
    if !write_to_database then some WriteMode.overwrite else none
  match database_conn with
  | none => Except.error (MainError.unboundLocalError "database_conn")
  | some mode =>
    Except.ok (NationalBoostModelInference.run cfg grid loader feed key now mode stored [])

/-- C2: two append-mode writes on the same Database Connection accumulate: from
any starting table the persisted table becomes the starting table followed by
b1 followed by b2, with insertion order preserved. -/
theorem append_accumulation (c : MockDatabaseConnection) (b1 b2 : PredictionTable) :
    ((c.write b1 WriteMode.append).write b2 WriteMode.append).stored =
      c.stored ++ b1 ++ b2 :=
  rfl

/-- C3: overwrite-mode write is idempotent and independent of prior content:
two successive overwrite writes of the same batch leave exactly one copy of the
batch. -/
theorem overwrite_idempotent (c : MockDatabaseConnection) (b : PredictionTable) :
    ((c.write b WriteMode.overwrite).write b WriteMode.overwrite).stored = b :=
  rfl

/-- C9: a Database Connection constructed in overwrite mode that has been
connected but never written to reads back an empty PredictionTable, whatever
the storage location previously held. -/
theorem read_fresh_overwrite_empty (stored : PredictionTable) :
    ((MockDatabaseConnection.mk true stored).connect).read = [] :=
  rfl

/-- C6: replay-feed retrieval is a deterministic function of the key: a second
`get_snapshot` call with the same key, on the feed as left by the first call,
returns a bit-identical WeatherSnapshot. -/
theorem replay_feed_deterministic (feed : MockDataFeed) (key : Nat) :
    (feed.get_snapshot key).1 = ((feed.get_snapshot key).2.get_snapshot key).1 :=
  rfl

/-- C10: in `main` of src/gradboost_pv/app.py, whenever the write_to_database
flag is set the real-database branch is an empty pass, so database_conn is
never bound and main fails with an unbound-local error for every input in that
mode; the pipeline is never run and nothing is persisted to a real database. -/
theorem main_unbound_database_conn (cfg : NationalPVModelConfig)
    (grid : CoordinateGrid) (loader : Nat → Option XGBRegressor)
    (feed : Nat → WeatherSnapshot) (key now : Nat) (stored : PredictionTable) :
    app_main true cfg grid loader feed key now stored =
      Except.error (MainError.unboundLocalError "database_conn") :=
  rfl


/-- Helper: every prediction produced by the per-horizon loop is stamped with
the shared base_time rt. -/
theorem predictHorizons_base_time (loader : Nat → Option XGBRegressor) (rt : Nat)
    (feats : List Int) (hs : List Nat) (st : ModelCache) (ps : List Prediction)
    (hok : (predictHorizons loader rt feats hs st).1 = Except.ok ps) :
    ∀ p ∈ ps, p.base_time = rt := by
  induction hs generalizing st ps with
  | nil =>
    simp only [predictHorizons] at hok
    cases hok
    simp
  | cons h rest ih =>
    simp only [predictHorizons] at hok
    split at hok
    · simp at hok
    · rename_i m st1 c1 hget
      split at hok
      · simp at hok
      · rename_i ps0 st2 c2 hrec
        simp at hok
        subst hok
        intro p hp
        rcases List.mem_cons.mp hp with h1 | h1
        · subst h1; rfl
        · exact ih st1 ps0 (by rw [hrec]) p h1

/-- Helper: on success the per-horizon loop yields exactly one prediction per
occurrence of each horizon in the configured list. -/
theorem predictHorizons_countP (loader : Nat → Option XGBRegressor) (rt : Nat)
    (feats : List Int) (hs : List Nat) (st : ModelCache) (ps : List Prediction) (k : Nat)
    (hok : (predictHorizons loader rt feats hs st).1 = Except.ok ps) :
    ps.countP (fun p => p.horizon == k) = hs.count k := by
  induction hs generalizing st ps with
  | nil =>
    simp only [predictHorizons] at hok
    cases hok
    simp
  | cons h rest ih =>
    simp only [predictHorizons] at hok
    split at hok
    · simp at hok
    · rename_i m st1 c1 hget
      split at hok
      · simp at hok
      · rename_i ps0 st2 c2 hrec
        simp at hok
        subst hok
        simp only [List.countP_cons, List.count_cons]
        rw [ih st1 ps0 (by rw [hrec])]

/-- Helper: when the per-horizon loop succeeds, every configured horizon was
either already cached at the start or loadable by the artifact loader. -/
theorem predictHorizons_ok_loadable (loader : Nat → Option XGBRegressor) (rt : Nat)
    (feats : List Int) (hs : List Nat) (st : ModelCache) (ps : List Prediction)
    (hok : (predictHorizons loader rt feats hs st).1 = Except.ok ps) :
    ∀ k ∈ hs, (lookupCache st k).isSome = true ∨ (loader k).isSome = true := by
  induction hs generalizing st ps with
  | nil => simp
  | cons h rest ih =>
    simp only [predictHorizons] at hok
    split at hok
    · simp at hok
    · rename_i m st1 c1 hget
      split at hok
      · simp at hok
      · rename_i ps0 st2 c2 hrec
        intro k hk
        have hrest := ih st1 ps0 (by rw [hrec])
        unfold getOrLoad at hget
        rcases hlk : lookupCache st h with _ | m0
        · rw [hlk] at hget
          rcases hld : loader h with _ | m1
          · rw [hld] at hget; simp at hget
          · rw [hld] at hget
            simp only [Prod.mk.injEq] at hget
            rcases List.mem_cons.mp hk with hk1 | hk1
            · subst hk1; right; rw [hld]; rfl
            · rcases hrest k hk1 with hc | hc
              · rw [← hget.2.1] at hc
                simp only [lookupCache] at hc
                by_cases hhk : h = k
                · subst hhk; right; rw [hld]; rfl
                · rw [if_neg hhk] at hc; left; exact hc
              · right; exact hc
        · rw [hlk] at hget
          simp only [Prod.mk.injEq] at hget
          rcases List.mem_cons.mp hk with hk1 | hk1
          · subst hk1; left; rw [hlk]; rfl
          · rcases hrest k hk1 with hc | hc
            · left; rw [← hget.2.1] at hc; exact hc
            · right; exact hc

/-- C4: every prediction produced by `predict_all` is stamped according to the
configuration's override flag: flag false gives the wall-clock time of the
invocation, flag true gives the timestamp embedded in the snapshot's metadata;
the choice is carried by the configuration, not by the call. -/
theorem base_time_policy (cfg : NationalPVModelConfig) (grid : CoordinateGrid)
    (loader : Nat → Option XGBRegressor) (snap : WeatherSnapshot) (now : Nat)
    (st : ModelCache) (ps : List Prediction) (p : Prediction)
    (hok : (predict_all cfg grid loader snap now st).1 = Except.ok ps) (hp : p ∈ ps) :
    (cfg.overwrite_read_datetime_at_inference = false → p.base_time = now) ∧
    (cfg.overwrite_read_datetime_at_inference = true →
      p.base_time = snap.metadata_datetime) := by
  unfold predict_all at hok
  split at hok
  · have hbt := predictHorizons_base_time loader (read_time cfg snap now) snap.features
      cfg.forecast_horizon_hours st ps hok p hp
    unfold read_time at hbt
    constructor
    · intro hf; rw [hf] at hbt; simpa using hbt
    · intro ht; rw [ht] at hbt; simpa using hbt
  · simp at hok

/-- Witness for C4 at a concrete input: a configuration with the override flag
false, one horizon, an aligned empty grid, and now = 5 yields a batch whose
single prediction carries base_time 5. -/
theorem base_time_policy_witness :
    (predict_all (NationalPVModelConfig.mk "m" [1] false) (CoordinateGrid.mk [] [])
        (fun _ => some (XGBRegressor.mk (fun _ => 7)))
        (WeatherSnapshot.mk [] 10 []) 5 []).1 =
      Except.ok [Prediction.mk 1 5 7] ∧
    Prediction.mk 1 5 7 ∈ [Prediction.mk 1 5 7] ∧
    (((NationalPVModelConfig.mk "m" [1] false).overwrite_read_datetime_at_inference
        = false → (Prediction.mk 1 5 7).base_time = 5) ∧
      ((NationalPVModelConfig.mk "m" [1] false).overwrite_read_datetime_at_inference
        = true → (Prediction.mk 1 5 7).base_time
          = (WeatherSnapshot.mk [] 10 []).metadata_datetime)) :=
  ⟨rfl, by decide,
    base_time_policy (NationalPVModelConfig.mk "m" [1] false) (CoordinateGrid.mk [] [])
      (fun _ => some (XGBRegressor.mk (fun _ => 7))) (WeatherSnapshot.mk [] 10 []) 5 []
      [Prediction.mk 1 5 7] (Prediction.mk 1 5 7) rfl (by decide)⟩

/-- Helper: the cache bit is at most one. -/
theorem cacheBit_le_one (st : ModelCache) (k : Nat) : cacheBit st k ≤ 1 := by
  unfold cacheBit
  split <;> omega

/-- Helper: one cache-consulting model resolution with a total loader invokes
the loader at most on a cache miss, and the miss is filled: the invocation
count plus the starting cache bit is bounded by the resulting cache bit. -/
theorem getOrLoad_total_bound (f : Nat → XGBRegressor) (st : ModelCache) (h k : Nat)
    (r : Except InferenceError XGBRegressor) (st1 : ModelCache) (c1 : List Nat)
    (hg : getOrLoad (fun n => some (f n)) st h = (r, st1, c1)) :
    c1.count k + cacheBit st k ≤ cacheBit st1 k := by
  unfold getOrLoad at hg
  rcases hlk : lookupCache st h with _ | m
  · rw [hlk] at hg
    simp only [Prod.mk.injEq] at hg
    rw [← hg.2.1, ← hg.2.2]
    by_cases hk : h = k
    · subst hk
      simp [List.count_cons, cacheBit, lookupCache, hlk]
    · simp [List.count_cons, cacheBit, lookupCache, hk]
  · rw [hlk] at hg
    simp only [Prod.mk.injEq] at hg
    rw [← hg.2.1, ← hg.2.2]
    simp

/-- Helper: across one per-horizon loop with a total loader, for each horizon k
the number of loader invocations plus the starting cache bit is bounded by the
final cache bit. -/
theorem predictHorizons_total_bound (f : Nat → XGBRegressor) (rt : Nat)
    (feats : List Int) (hs : List Nat) (st : ModelCache) (k : Nat)
    (r : Except InferenceError (List Prediction)) (st1 : ModelCache) (c : List Nat)
    (hp : predictHorizons (fun n => some (f n)) rt feats hs st = (r, st1, c)) :
    c.count k + cacheBit st k ≤ cacheBit st1 k := by
  induction hs generalizing st r st1 c with
  | nil =>
    simp only [predictHorizons, Prod.mk.injEq] at hp
    rw [← hp.2.1, ← hp.2.2]
    simp
  | cons h rest ih =>
    simp only [predictHorizons] at hp
    split at hp
    · rename_i e stA c1 hget
      simp only [Prod.mk.injEq] at hp
      rw [← hp.2.1, ← hp.2.2]
      exact getOrLoad_total_bound f st h k (Except.error e) stA c1 hget
    · rename_i m stA c1 hget
      have hb1 := getOrLoad_total_bound f st h k (Except.ok m) stA c1 hget
      split at hp
      · rename_i e stB c2 hrec
        have hb2 := ih stA (Except.error e) stB c2 hrec
        simp only [Prod.mk.injEq] at hp
        rw [← hp.2.1, ← hp.2.2]
        simp only [List.count_append]
        omega
      · rename_i ps0 stB c2 hrec
        have hb2 := ih stA (Except.ok ps0) stB c2 hrec
        simp only [Prod.mk.injEq] at hp
        rw [← hp.2.1, ← hp.2.2]
        simp only [List.count_append]
        omega

/-- Helper: the same invocation-count bound for one full `predict_all` call
with a total loader. -/
theorem predict_all_total_bound (cfg : NationalPVModelConfig) (grid : CoordinateGrid)
    (f : Nat → XGBRegressor) (snap : WeatherSnapshot) (now : Nat)
    (st : ModelCache) (k : Nat)
    (r : Except InferenceError (List Prediction)) (st1 : ModelCache) (c : List Nat)
    (hp : predict_all cfg grid (fun n => some (f n)) snap now st = (r, st1, c)) :
    c.count k + cacheBit st k ≤ cacheBit st1 k := by
  unfold predict_all at hp
  split at hp
  · exact predictHorizons_total_bound f (read_time cfg snap now) snap.features
      cfg.forecast_horizon_hours st k r st1 c hp
  · simp only [Prod.mk.injEq] at hp
    rw [← hp.2.1, ← hp.2.2]
    simp

/-- Helper: across a whole sequence of `predict_all` calls with a total loader,
for each horizon k the total number of loader invocations plus the starting
cache bit is bounded by the final cache bit. -/
theorem runSeq_total_bound (cfg : NationalPVModelConfig) (grid : CoordinateGrid)
    (f : Nat → XGBRegressor) (inputs : List (WeatherSnapshot × Nat))
    (st stN : ModelCache) (c : List Nat) (k : Nat)
    (hr : runSeq cfg grid f inputs st = (stN, c)) :
    c.count k + cacheBit st k ≤ cacheBit stN k := by
  induction inputs generalizing st stN c with
  | nil =>
    simp only [runSeq, Prod.mk.injEq] at hr
    rw [← hr.1, ← hr.2]
    simp
  | cons input rest ih =>
    rcases input with ⟨snap, now⟩
    simp only [runSeq] at hr
    rcases hpa : predict_all cfg grid (fun n => some (f n)) snap now st with ⟨r1, stA, c1⟩
    rw [hpa] at hr
    rcases hrs : runSeq cfg grid f rest stA with ⟨stB, c2⟩
    rw [hrs] at hr
    simp only [Prod.mk.injEq] at hr
    rw [← hr.1, ← hr.2]
    have hb1 := predict_all_total_bound cfg grid f snap now st k r1 stA c1 hpa
    have hb2 := ih stA stB c2 hrs
    simp only [List.count_append]
    omega

/-- C5: across any sequence of `predict_all` calls within one process lifetime,
starting from the empty cache, the injected model-artifact loader is invoked at
most once per distinct horizon; later runs are served from the cache. -/
theorem loader_called_at_most_once (cfg : NationalPVModelConfig)
    (grid : CoordinateGrid) (f : Nat → XGBRegressor)
    (inputs : List (WeatherSnapshot × Nat)) (k : Nat) :
    ((runSeq cfg grid f inputs []).2).count k ≤ 1 := by
  rcases hr : runSeq cfg grid f inputs [] with ⟨stN, c⟩
  have hb := runSeq_total_bound cfg grid f inputs [] stN c k hr
  have h1 := cacheBit_le_one stN k
  have h0 : cacheBit [] k = 0 := rfl
  simp only
  omega

/-- C7: when, starting from a fresh process (empty cache), the model artifact
for some configured horizon cannot be loaded, `run()` does not succeed, the
persisted table is left unchanged, and no write is performed. -/
theorem artifact_failure_aborts (cfg : NationalPVModelConfig) (grid : CoordinateGrid)
    (loader : Nat → Option XGBRegressor) (feed : Nat → WeatherSnapshot)
    (key now : Nat) (mode : WriteMode) (stored : PredictionTable)
    (h : Nat) (hh : h ∈ cfg.forecast_horizon_hours) (hfail : loader h = none) :
    (NationalBoostModelInference.run cfg grid loader feed key now mode stored []).outcome
      ≠ Except.ok () ∧
    (NationalBoostModelInference.run cfg grid loader feed key now mode stored []).table
      = stored ∧
    ((NationalBoostModelInference.run cfg grid loader feed key now mode
        stored []).events.count RunEvent.writeEv) = 0 := by
  rcases hpa : predict_all cfg grid loader (feed key) now [] with ⟨r1, st1, c1⟩
  cases r1 with
  | error e =>
    have hrun : NationalBoostModelInference.run cfg grid loader feed key now mode stored []
        = RunResult.mk (Except.error e) stored st1 c1
            [RunEvent.getSnapshotEv, RunEvent.predictAllEv] := by
      simp only [NationalBoostModelInference.run, hpa]
    rw [hrun]
    exact ⟨by simp, rfl, rfl⟩
  | ok batch =>
    exfalso
    have h1 : (predict_all cfg grid loader (feed key) now []).1 = Except.ok batch := by
      rw [hpa]
    unfold predict_all at h1
    split at h1
    · have hld := predictHorizons_ok_loadable loader
        (read_time cfg (feed key) now) (feed key).features
        cfg.forecast_horizon_hours [] batch h1 h hh
      rcases hld with hc | hc
      · simp [lookupCache] at hc
      · rw [hfail] at hc
        simp at hc
    · simp at h1

/-- Witness for C7 at a concrete input: one configured horizon 3 whose loader
yields nothing; the run does not succeed, the prior table survives unchanged
and no write event occurs. -/
theorem artifact_failure_aborts_witness :
    (3 ∈ (NationalPVModelConfig.mk "m" [3] false).forecast_horizon_hours) ∧
    ((fun _ => none : Nat → Option XGBRegressor) 3 = none) ∧
    ((NationalBoostModelInference.run (NationalPVModelConfig.mk "m" [3] false)
        (CoordinateGrid.mk [] []) (fun _ => none) (fun _ => WeatherSnapshot.mk [] 0 [])
        0 5 WriteMode.overwrite [Prediction.mk 9 9 9] []).outcome ≠ Except.ok () ∧
      (NationalBoostModelInference.run (NationalPVModelConfig.mk "m" [3] false)
        (CoordinateGrid.mk [] []) (fun _ => none) (fun _ => WeatherSnapshot.mk [] 0 [])
        0 5 WriteMode.overwrite [Prediction.mk 9 9 9] []).table = [Prediction.mk 9 9 9] ∧
      ((NationalBoostModelInference.run (NationalPVModelConfig.mk "m" [3] false)
        (CoordinateGrid.mk [] []) (fun _ => none) (fun _ => WeatherSnapshot.mk [] 0 [])
        0 5 WriteMode.overwrite [Prediction.mk 9 9 9] []).events.count
          RunEvent.writeEv) = 0) :=
  ⟨by decide, rfl,
    artifact_failure_aborts (NationalPVModelConfig.mk "m" [3] false)
      (CoordinateGrid.mk [] []) (fun _ => none) (fun _ => WeatherSnapshot.mk [] 0 [])
      0 5 WriteMode.overwrite [Prediction.mk 9 9 9] 3 (by decide) rfl⟩

/-- C8: a WeatherSnapshot whose spatial indexing does not match the grid's
coordinate pairing makes the run fail with the alignment error: no prediction
is produced, the loader is never invoked, the persisted table is unchanged and
no write is performed. -/
theorem alignment_failure_no_write (cfg : NationalPVModelConfig)
    (grid : CoordinateGrid) (loader : Nat → Option XGBRegressor)
    (feed : Nat → WeatherSnapshot) (key now : Nat) (mode : WriteMode)
    (stored : PredictionTable) (st : ModelCache)
    (hmis : aligned grid (feed key) = false) :
    (NationalBoostModelInference.run cfg grid loader feed key now mode stored st).outcome
      = Except.error InferenceError.alignmentError ∧
    (NationalBoostModelInference.run cfg grid loader feed key now mode stored st).table
      = stored ∧
    (NationalBoostModelInference.run cfg grid loader feed key now mode stored st).calls
      = [] ∧
    ((NationalBoostModelInference.run cfg grid loader feed key now mode
        stored st).events.count RunEvent.writeEv) = 0 := by
  have hpa : predict_all cfg grid loader (feed key) now st
      = (Except.error InferenceError.alignmentError, st, []) := by
    simp [predict_all, hmis]
  have hrun : NationalBoostModelInference.run cfg grid loader feed key now mode stored st
      = RunResult.mk (Except.error InferenceError.alignmentError) stored st []
          [RunEvent.getSnapshotEv, RunEvent.predictAllEv] := by
    simp only [NationalBoostModelInference.run, hpa]
  rw [hrun]
  exact ⟨rfl, rfl, rfl, rfl⟩

/-- Witness for C8 at a concrete input: a one-cell grid against a snapshot with
empty spatial indexing is misaligned; the run fails with the alignment error,
leaves the prior table unchanged, invokes no loader and performs no write. -/
theorem alignment_failure_no_write_witness :
    (aligned (CoordinateGrid.mk [0] [0])
        ((fun _ => WeatherSnapshot.mk [] 0 []) (0 : Nat)) = false) ∧
    ((NationalBoostModelInference.run (NationalPVModelConfig.mk "m" [1] false)
        (CoordinateGrid.mk [0] [0]) (fun _ => some (XGBRegressor.mk (fun _ => 0)))
        (fun _ => WeatherSnapshot.mk [] 0 []) 0 5 WriteMode.append
        [Prediction.mk 9 9 9] []).outcome = Except.error InferenceError.alignmentError ∧
      (NationalBoostModelInference.run (NationalPVModelConfig.mk "m" [1] false)
        (CoordinateGrid.mk [0] [0]) (fun _ => some (XGBRegressor.mk (fun _ => 0)))
        (fun _ => WeatherSnapshot.mk [] 0 []) 0 5 WriteMode.append
        [Prediction.mk 9 9 9] []).table = [Prediction.mk 9 9 9] ∧
      (NationalBoostModelInference.run (NationalPVModelConfig.mk "m" [1] false)
        (CoordinateGrid.mk [0] [0]) (fun _ => some (XGBRegressor.mk (fun _ => 0)))
        (fun _ => WeatherSnapshot.mk [] 0 []) 0 5 WriteMode.append
        [Prediction.mk 9 9 9] []).calls = [] ∧
      ((NationalBoostModelInference.run (NationalPVModelConfig.mk "m" [1] false)
        (CoordinateGrid.mk [0] [0]) (fun _ => some (XGBRegressor.mk (fun _ => 0)))
        (fun _ => WeatherSnapshot.mk [] 0 []) 0 5 WriteMode.append
        [Prediction.mk 9 9 9] []).events.count RunEvent.writeEv) = 0) :=
  ⟨rfl,
    alignment_failure_no_write (NationalPVModelConfig.mk "m" [1] false)
      (CoordinateGrid.mk [0] [0]) (fun _ => some (XGBRegressor.mk (fun _ => 0)))
      (fun _ => WeatherSnapshot.mk [] 0 []) 0 5 WriteMode.append
      [Prediction.mk 9 9 9] [] rfl⟩

/-- C1 counterexample: a successful append-mode `run()` onto a prior table that
already holds a record with the same horizon and the batch's base_time leaves
the persisted table with two records of horizon 1, not exactly one. -/
theorem run_single_record_counterexample :
    (NationalBoostModelInference.run (NationalPVModelConfig.mk "m" [1] true)
        (CoordinateGrid.mk [] []) (fun _ => some (XGBRegressor.mk (fun _ => 0)))
        (fun _ => WeatherSnapshot.mk [] 10 []) 0 5 WriteMode.append
        [Prediction.mk 1 10 0] []).outcome = Except.ok () ∧
    ((NationalBoostModelInference.run (NationalPVModelConfig.mk "m" [1] true)
        (CoordinateGrid.mk [] []) (fun _ => some (XGBRegressor.mk (fun _ => 0)))
        (fun _ => WeatherSnapshot.mk [] 10 []) 0 5 WriteMode.append
        [Prediction.mk 1 10 0] []).table.countP (fun p => p.horizon == 1)) = 2 :=
  ⟨rfl, rfl⟩

/-- C1 (amended): for a configuration whose horizons are pairwise distinct,
after a successful overwrite-mode `run()` the persisted table contains exactly
one Prediction per configured horizon, every persisted record carries the
batch's shared base_time, and the run performed exactly one snapshot retrieval,
one `predict_all` call and one write. -/
theorem run_batch_completeness (cfg : NationalPVModelConfig) (grid : CoordinateGrid)
    (loader : Nat → Option XGBRegressor) (feed : Nat → WeatherSnapshot)
    (key now : Nat) (stored : PredictionTable) (st : ModelCache)
    (hnd : cfg.forecast_horizon_hours.Nodup)
    (hok : (NationalBoostModelInference.run cfg grid loader feed key now
        WriteMode.overwrite stored st).outcome = Except.ok ())
    (h : Nat) (hh : h ∈ cfg.forecast_horizon_hours) :
    ((NationalBoostModelInference.run cfg grid loader feed key now
        WriteMode.overwrite stored st).table.countP (fun p => p.horizon == h)) = 1 ∧
    (∀ p ∈ (NationalBoostModelInference.run cfg grid loader feed key now
        WriteMode.overwrite stored st).table,
      p.base_time = read_time cfg (feed key) now) ∧
    ((NationalBoostModelInference.run cfg grid loader feed key now
        WriteMode.overwrite stored st).events.count RunEvent.getSnapshotEv) = 1 ∧
    ((NationalBoostModelInference.run cfg grid loader feed key now
        WriteMode.overwrite stored st).events.count RunEvent.predictAllEv) = 1 ∧
    ((NationalBoostModelInference.run cfg grid loader feed key now
        WriteMode.overwrite stored st).events.count RunEvent.writeEv) = 1 := by
  rcases hpa : predict_all cfg grid loader (feed key) now st with ⟨r1, st1, c1⟩
  cases r1 with
  | error e =>
    exfalso
    have hrun : NationalBoostModelInference.run cfg grid loader feed key now
        WriteMode.overwrite stored st
        = RunResult.mk (Except.error e) stored st1 c1
            [RunEvent.getSnapshotEv, RunEvent.predictAllEv] := by
      simp only [NationalBoostModelInference.run, hpa]
    rw [hrun] at hok
    simp at hok
  | ok batch =>
    have hrun : NationalBoostModelInference.run cfg grid loader feed key now
        WriteMode.overwrite stored st
        = RunResult.mk (Except.ok ()) batch st1 c1
            [RunEvent.getSnapshotEv, RunEvent.predictAllEv, RunEvent.writeEv] := by
      simp only [NationalBoostModelInference.run, hpa, writeTable]
    have h1 : (predict_all cfg grid loader (feed key) now st).1 = Except.ok batch := by
      rw [hpa]
    unfold predict_all at h1
    split at h1
    · have hcnt := predictHorizons_countP loader (read_time cfg (feed key) now)
        (feed key).features cfg.forecast_horizon_hours st batch h h1
      have hbt := predictHorizons_base_time loader (read_time cfg (feed key) now)
        (feed key).features cfg.forecast_horizon_hours st batch h1
      simp only [hrun]
      refine ⟨?_, ?_, rfl, rfl, rfl⟩
      · rw [hcnt]
        exact List.count_eq_one_of_mem hnd hh
      · exact hbt
    · simp at h1

/-- Witness for C1 (amended) at a concrete input: one horizon, overwrite mode,
a nonempty prior table; the run replaces the table with the single-record batch
stamped with the wall-clock time 5. -/
theorem run_batch_completeness_witness :
    ((NationalPVModelConfig.mk "m" [1] false).forecast_horizon_hours.Nodup) ∧
    ((NationalBoostModelInference.run (NationalPVModelConfig.mk "m" [1] false)
        (CoordinateGrid.mk [] []) (fun _ => some (XGBRegressor.mk (fun _ => 7)))
        (fun _ => WeatherSnapshot.mk [] 10 []) 0 5 WriteMode.overwrite
        [Prediction.mk 9 9 9] []).outcome = Except.ok ()) ∧
    (1 ∈ (NationalPVModelConfig.mk "m" [1] false).forecast_horizon_hours) ∧
    (((NationalBoostModelInference.run (NationalPVModelConfig.mk "m" [1] false)
        (CoordinateGrid.mk [] []) (fun _ => some (XGBRegressor.mk (fun _ => 7)))
        (fun _ => WeatherSnapshot.mk [] 10 []) 0 5 WriteMode.overwrite
        [Prediction.mk 9 9 9] []).table.countP (fun p => p.horizon == 1)) = 1 ∧
      (∀ p ∈ (NationalBoostModelInference.run (NationalPVModelConfig.mk "m" [1] false)
        (CoordinateGrid.mk [] []) (fun _ => some (XGBRegressor.mk (fun _ => 7)))
        (fun _ => WeatherSnapshot.mk [] 10 []) 0 5 WriteMode.overwrite
        [Prediction.mk 9 9 9] []).table,
        p.base_time = read_time (NationalPVModelConfig.mk "m" [1] false)
          (WeatherSnapshot.mk [] 10 []) 5) ∧
      ((NationalBoostModelInference.run (NationalPVModelConfig.mk "m" [1] false)
        (CoordinateGrid.mk [] []) (fun _ => some (XGBRegressor.mk (fun _ => 7)))
        (fun _ => WeatherSnapshot.mk [] 10 []) 0 5 WriteMode.overwrite
        [Prediction.mk 9 9 9] []).events.count RunEvent.getSnapshotEv) = 1 ∧
      ((NationalBoostModelInference.run (NationalPVModelConfig.mk "m" [1] false)
        (CoordinateGrid.mk [] []) (fun _ => some (XGBRegressor.mk (fun _ => 7)))
        (fun _ => WeatherSnapshot.mk [] 10 []) 0 5 WriteMode.overwrite
        [Prediction.mk 9 9 9] []).events.count RunEvent.predictAllEv) = 1 ∧
      ((NationalBoostModelInference.run (NationalPVModelConfig.mk "m" [1] false)
        (CoordinateGrid.mk [] []) (fun _ => some (XGBRegressor.mk (fun _ => 7)))
        (fun _ => WeatherSnapshot.mk [] 10 []) 0 5 WriteMode.overwrite
        [Prediction.mk 9 9 9] []).events.count RunEvent.writeEv) = 1) :=
  ⟨by decide, rfl, by decide,
    run_batch_completeness (NationalPVModelConfig.mk "m" [1] false)
      (CoordinateGrid.mk [] []) (fun _ => some (XGBRegressor.mk (fun _ => 7)))
      (fun _ => WeatherSnapshot.mk [] 10 []) 0 5 [Prediction.mk 9 9 9] []
      (by decide) rfl 1 (by decide)⟩
